import Mathlib

/-!
Verification of the single-file program of this repository, the NBA stat
viewer and predictor.

Modelling conventions used throughout:
* pandas numeric values are rationals; the missing-value marker NaN
  (which is also what every unparseable entry becomes under a coercion
  with errors set to coerce) is modelled as the value none of type
  Option Rat.
* Python round at d decimal places is round-half-to-even, modelled by
  roundTo.
* A pandas DataFrame of numeric columns is an association list from
  column name to the list of column values.
* Python exceptions are the PyError type, carrying the exception class
  (ValueError or RuntimeError) and the message; a fallible operation
  returns Except PyError.
* External API calls (the player-directory lookup, the game-log fetch)
  are passed in as Except String values: the error case models the call
  raising an exception whose message is the carried string.
-/

deriving instance DecidableEq for Except

namespace NBAStats

/-- Round-half-to-even to an integer, the rounding used by Python round.
(Rat.floor is used rather than the floor-ring notation so that the
definition reduces; the two agree, see ratFloor_eq.) -/
def roundHalfEven (q : ℚ) : ℤ :=
  let f := q.floor
  let r := q - f
  if r < 1/2 then f
  else if r = 1/2 then (if f % 2 = 0 then f else f + 1)
  else f + 1

/-- Python round of q at d decimal places: round half-to-even. -/
def roundTo (d : ℕ) (q : ℚ) : ℚ :=
  (roundHalfEven (q * 10 ^ d) : ℚ) / 10 ^ d

/-- Python str.upper for the ASCII strings appearing in this program. -/
def pyUpper (s : String) : String := ⟨s.data.map Char.toUpper⟩

/-- Python str.lower for the ASCII strings appearing in this program. -/
def pyLower (s : String) : String := ⟨s.data.map Char.toLower⟩

/-- Source line 7: the list of valid NBA statistics codes. -/
def VALID_STATS : List String := ["PTS", "AST", "REB", "BLK", "STL"]

/-- Source lines 9-11, is_valid_stat: membership of the upper-cased stat
in VALID_STATS. -/
def is_valid_stat (stat : String) : Bool :=
  VALID_STATS.contains (pyUpper stat)

/-- A numeric pandas DataFrame: columns of optional rationals keyed by
column name.  (The string-valued GAME_DATE column of the game log is kept
separately in GameRow; only numeric columns are ever addressed by name in
StatFormula.) -/
abbrev Frame := List (String × List (Option ℚ))

/-- Python exceptions, by exception class and message. -/
inductive PyError where
  | valueError (msg : String)
  | runtimeError (msg : String)
deriving DecidableEq, Repr

/-- Source line 120, the expression summing the boolean comparison column:
the number of entries that are present (not NaN) and at least the
threshold.  A comparison against NaN is False in pandas, so a missing
entry never counts. -/
def countGE (t : ℚ) (vs : List (Option ℚ)) : ℕ :=
  (vs.filter fun v => match v with
    | some x => decide (t ≤ x)
    | none => false).length

/-- Source lines 120-121, the threshold branch of StatFormula.compute:
round(count / len(values), 2).  On an empty column numpy evaluates the
division zero by zero to NaN (a warning, not an exception), and rounding
NaN gives NaN, hence the missing marker none. -/
def thresholdResult (t : ℚ) (vs : List (Option ℚ)) : Option ℚ :=
  if vs.length = 0 then none
  else some (roundTo 2 ((countGE t vs : ℚ) / (vs.length : ℚ)))

/-- Source line 122, the average branch of StatFormula.compute:
round(values.mean(), 2).  Series.mean skips NaN entries; when every entry
is missing (or the column is empty) the mean is NaN, and rounding NaN
gives NaN, hence the missing marker none. -/
def meanResult (vs : List (Option ℚ)) : Option ℚ :=
  let xs := vs.filterMap id
  if xs.length = 0 then none
  else some (roundTo 2 (xs.sum / (xs.length : ℚ)))

/-- Source lines 115-126, StatFormula.compute.  The constructor
upper-cases the stat (line 112), and indexing the frame with a missing
column raises KeyError, which compute turns into a ValueError naming the
(upper-cased) stat. -/
def StatFormula.compute (data : Frame) (stat : String) (threshold : Option ℚ) :
    Except PyError (Option ℚ) :=
  match data.lookup (pyUpper stat) with
  | none =>
      .error (.valueError ("Stat \x27" ++ pyUpper stat ++ "\x27 not found in game data."))
  | some vs =>
      match threshold with
      | some t => .ok (thresholdResult t vs)
      | none => .ok (meanResult vs)

/-- One record of the external player directory (source line 37), with
the fields used by the lookup. -/
structure DirEntry where
  full_name : String
  id : ℕ
deriving DecidableEq, Repr

/-- Source lines 34-44, NBAData.lookup_player_id.  The argument name is
the title-cased self.name; the directory argument is the external call
players.get_players(), whose failure carries a message.  A zero-match
lookup raises a ValueError inside the try block, so like every other
failure it is re-raised as a RuntimeError with the looking-up prefix. -/
def lookup_player_id (name : String) (directory : Except String (List DirEntry)) :
    Except PyError ℕ :=
  match directory with
  | .error e => .error (.runtimeError ("Error looking up player ID: " ++ e))
  | .ok all_players =>
      match all_players.filter (fun p => pyLower p.full_name == pyLower name) with
      | [] => .error (.runtimeError ("Error looking up player ID: Player \x27" ++ name
          ++ "\x27 not found in NBA API."))
      | p :: _ => .ok p.id

/-- One row of the career-totals table (frame index 1 of the career
endpoint), with the columns read by get_career_averages. -/
structure CareerRow where
  GP : ℚ
  PTS : ℚ
  AST : ℚ
  REB : ℚ
  BLK : ℚ
  STL : ℚ
deriving DecidableEq, Repr

/-- Source lines 72-88, NBAData.get_career_averages, applied to the
already-retrieved career-totals table (a list of rows; the source reads
row 0 of each column).  Empty table or zero games played yields the empty
mapping; otherwise each of the five stats is total over games played,
rounded to one decimal. -/
def get_career_averages (df : List CareerRow) : List (String × ℚ) :=
  match df with
  | [] => []
  | r :: _ =>
      if r.GP = 0 then []
      else
        [("PTS", roundTo 1 (r.PTS / r.GP)),
         ("AST", roundTo 1 (r.AST / r.GP)),
         ("REB", roundTo 1 (r.REB / r.GP)),
         ("BLK", roundTo 1 (r.BLK / r.GP)),
         ("STL", roundTo 1 (r.STL / r.GP))]

/-- A raw game-log cell before numeric coercion: either a value pandas
parses to a number, or an entry (missing or unparseable) that the
coercion with errors set to coerce turns into NaN. -/
inductive RawVal where
  | num (q : ℚ)
  | missing
deriving DecidableEq, Repr

/-- Source lines 100-101: pd.to_numeric with errors set to coerce. -/
def to_numeric : RawVal → Option ℚ
  | .num q => some q
  | .missing => none

/-- One raw row of the fetched game log, restricted to the selected
columns GAME_DATE plus the five stats (source line 99). -/
structure RawGameRow where
  GAME_DATE : String
  PTS : RawVal
  AST : RawVal
  REB : RawVal
  BLK : RawVal
  STL : RawVal
deriving DecidableEq, Repr

/-- One row of the table returned by get_recent_games, after numeric
coercion of the five stat columns. -/
structure GameRow where
  GAME_DATE : String
  PTS : Option ℚ
  AST : Option ℚ
  REB : Option ℚ
  BLK : Option ℚ
  STL : Option ℚ
deriving DecidableEq, Repr

/-- Numeric coercion of the five stat columns of one row (source lines
100-101). -/
def coerceRow (r : RawGameRow) : GameRow :=
  { GAME_DATE := r.GAME_DATE
    PTS := to_numeric r.PTS
    AST := to_numeric r.AST
    REB := to_numeric r.REB
    BLK := to_numeric r.BLK
    STL := to_numeric r.STL }

/-- Source lines 90-104, NBAData.get_recent_games.  The inactive check
(lines 92-93) happens before the try block and before the game-log call,
raising a plain ValueError.  Inside the try block, the game-log call is
the log argument; an empty log raises a ValueError which the except
clause re-wraps as a RuntimeError, like any other failure of the call.
Otherwise the selected columns of the first num_games rows are returned
with the stat columns coerced to numeric. -/
def get_recent_games (is_active : Bool) (name : String)
    (log : Except String (List RawGameRow)) (season : String) (num_games : ℕ) :
    Except PyError (List GameRow) :=
  if is_active = false then
    .error (.valueError (name ++ " is not an active player. Recent game logs unavailable."))
  else
    match log with
    | .error e => .error (.runtimeError ("Error retrieving recent games: " ++ e))
    | .ok df =>
        if df.isEmpty then
          .error (.runtimeError ("Error retrieving recent games: No game log data available for "
            ++ name ++ " in season " ++ season ++ "."))
        else
          .ok ((df.take num_games).map coerceRow)

/-- The numeric columns of the table returned by get_recent_games, as the
Frame that main hands to StatFormula (source lines 181-185). -/
def toFrame (rows : List GameRow) : Frame :=
  [("PTS", rows.map GameRow.PTS),
   ("AST", rows.map GameRow.AST),
   ("REB", rows.map GameRow.REB),
   ("BLK", rows.map GameRow.BLK),
   ("STL", rows.map GameRow.STL)]

/-- Python format of a float with format spec .1f: round half-to-even at
one decimal and print one fractional digit. -/
def fmt1 (q : ℚ) : String :=
  let n := roundHalfEven (q * 10)
  let sign := if n < 0 then "-" else ""
  let a := n.natAbs
  sign ++ toString (a / 10) ++ "." ++ toString (a % 10)

/-- The least number of decimal places d with den dividing 10 to the d,
if any below 1100 (every IEEE double has a power-of-two denominator below
2 to the 1075, so every float value is covered). -/
def decPlaces (den : ℕ) : Option ℕ :=
  (List.range 1100).find? (fun k => decide (den ∣ 10 ^ k))

/-- Left-pad a digit string with zeros to length k. -/
def padZeros (s : String) (k : ℕ) : String :=
  ⟨List.replicate (k - s.length) '0' ++ s.data⟩

/-- Python str of a float whose value is the exact decimal q: an integral
value prints with a trailing .0, otherwise the shortest decimal form. -/
def floatStr (q : ℚ) : String :=
  match decPlaces q.den with
  | some 0 => toString q.num ++ ".0"
  | some (k + 1) =>
      let m := k + 1
      let a := (q.num * 10 ^ m / (q.den : ℤ)).natAbs
      (if q.num < 0 then "-" else "")
        ++ toString (a / 10 ^ m) ++ "." ++ padZeros (toString (a % 10 ^ m)) m
  | none => toString q.num ++ "/" ++ toString q.den

/-- Source line 188, the threshold-mode output line of main.  The source
file is double-encoded at the comparison sign: its bytes there are the
three characters U+00E2, U+2030, U+00A5 (the mojibake of the
greater-or-equal sign), so that is literally what the program prints. -/
def predictionLine (name : String) (result : ℚ) (threshold : ℚ) (stat : String) : String :=
  "\nPrediction: " ++ name ++ " has a " ++ fmt1 (result * 100)
    ++ "% chance of â‰¥ " ++ floatStr threshold ++ " " ++ stat ++ "."

/-- Modelled from the spec (section 6, console output): the threshold-mode
line as the spec states it, with a real greater-or-equal sign U+2265. -/
def predictionLineSpec (name : String) (result : ℚ) (threshold : ℚ) (stat : String) : String :=
  "\nPrediction: " ++ name ++ " has a " ++ fmt1 (result * 100)
    ++ "% chance of ≥ " ++ floatStr threshold ++ " " ++ stat ++ "."

/-- The executable floor used in roundHalfEven agrees with the floor-ring
floor on the rationals. -/
theorem ratFloor_eq (q : ℚ) : q.floor = ⌊q⌋ :=
  (Rat.floor_def' q).trans Rat.floor_def.symm

/-- Rounding an integer changes nothing. -/
theorem roundHalfEven_intCast (n : ℤ) : roundHalfEven (n : ℚ) = n := by
  unfold roundHalfEven
  rw [ratFloor_eq, Int.floor_intCast]
  norm_num

/-- Rounding at d decimals of a value that is exactly n over 10 to the d. -/
theorem roundTo_eq_intCast {d : ℕ} {q : ℚ} {n : ℤ} (h : q * 10 ^ d = (n : ℚ)) :
    roundTo d q = (n : ℚ) / 10 ^ d := by
  unfold roundTo
  rw [h, roundHalfEven_intCast]

/-- Unfolded form of roundHalfEven through the floor-ring floor. -/
theorem roundHalfEven_eq_ite (q : ℚ) : roundHalfEven q =
    if q - (⌊q⌋ : ℚ) < 1 / 2 then ⌊q⌋
    else if q - (⌊q⌋ : ℚ) = 1 / 2 then (if ⌊q⌋ % 2 = 0 then ⌊q⌋ else ⌊q⌋ + 1)
    else ⌊q⌋ + 1 := by
  unfold roundHalfEven
  rw [ratFloor_eq]

/-- Round-half-even of a nonnegative value is nonnegative. -/
theorem roundHalfEven_nonneg {q : ℚ} (h : 0 ≤ q) : 0 ≤ roundHalfEven q := by
  have hf : 0 ≤ ⌊q⌋ := Int.floor_nonneg.mpr h
  rw [roundHalfEven_eq_ite]
  split_ifs <;> omega

/-- Round-half-even stays at or below any integer bound on the input. -/
theorem roundHalfEven_le_of_le {q : ℚ} {c : ℤ} (h : q ≤ (c : ℚ)) : roundHalfEven q ≤ c := by
  have hf : ⌊q⌋ ≤ c := by
    have h2 := Int.floor_le_floor h
    simpa using h2
  have hsucc : (1 : ℚ) / 2 ≤ q - (⌊q⌋ : ℚ) → ⌊q⌋ + 1 ≤ c := by
    intro hr
    have hlt : ((⌊q⌋ : ℤ) : ℚ) < (c : ℚ) := by linarith
    have : ⌊q⌋ < c := by exact_mod_cast hlt
    omega
  rw [roundHalfEven_eq_ite]
  split_ifs with h1 h2 h3
  · exact hf
  · exact hf
  · exact hsucc (le_of_eq h2.symm)
  · exact hsucc (le_of_not_lt h1)

/-- Rounding a value in the unit interval stays nonnegative. -/
theorem roundTo_nonneg {d : ℕ} {q : ℚ} (h : 0 ≤ q) : 0 ≤ roundTo d q := by
  unfold roundTo
  apply div_nonneg
  · exact_mod_cast roundHalfEven_nonneg (by positivity)
  · positivity

/-- Rounding a value at most one stays at most one. -/
theorem roundTo_le_one {d : ℕ} {q : ℚ} (h : q ≤ 1) : roundTo d q ≤ 1 := by
  unfold roundTo
  rw [div_le_one (by positivity)]
  have hb : roundHalfEven (q * 10 ^ d) ≤ ((10 : ℤ) ^ d) := by
    apply roundHalfEven_le_of_le
    push_cast
    nlinarith [pow_pos (show (0:ℚ) < 10 by norm_num) d]
  exact_mod_cast hb

/-- Counting in the empty column. -/
theorem countGE_nil (t : ℚ) : countGE t [] = 0 := rfl

/-- A missing entry never counts toward the threshold count. -/
theorem countGE_cons_none (t : ℚ) (vs : List (Option ℚ)) :
    countGE t (none :: vs) = countGE t vs := by
  simp [countGE, List.filter_cons]

/-- A present entry meeting the threshold counts once. -/
theorem countGE_cons_some_of_le {t x : ℚ} (h : t ≤ x) (vs : List (Option ℚ)) :
    countGE t (some x :: vs) = countGE t vs + 1 := by
  simp [countGE, List.filter_cons, h]

/-- A present entry below the threshold does not count. -/
theorem countGE_cons_some_of_lt {t x : ℚ} (h : x < t) (vs : List (Option ℚ)) :
    countGE t (some x :: vs) = countGE t vs := by
  simp [countGE, List.filter_cons, not_le.mpr h]

/-- C1: for every table containing the chosen stat column with a non-empty
column and every threshold, StatFormula.compute returns the count of rows
whose stat value is at least the threshold, divided by the total row
count, rounded to two decimals. -/
theorem C1_threshold_ratio (data : Frame) (stat : String) (t : ℚ) (vs : List (Option ℚ))
    (hcol : data.lookup (pyUpper stat) = some vs) (hne : vs ≠ []) :
    StatFormula.compute data stat (some t)
      = .ok (some (roundTo 2 ((countGE t vs : ℚ) / (vs.length : ℚ)))) := by
  unfold StatFormula.compute
  rw [hcol]
  show Except.ok (thresholdResult t vs) = _
  unfold thresholdResult
  rw [if_neg (by simpa using hne)]

/-- Witness for C1: values [18, 22, 25, 15, 30] with threshold 20 give
round(3 / 5, 2) = 0.60. -/
theorem C1_threshold_ratio_witness :
    StatFormula.compute [("PTS", [some 18, some 22, some 25, some 15, some 30])] "PTS" (some 20)
      = .ok (some (60 / 100)) := by
  rw [C1_threshold_ratio [("PTS", [some 18, some 22, some 25, some 15, some 30])] "PTS" 20
    [some 18, some 22, some 25, some 15, some 30] (by rfl) (by simp)]
  rw [countGE_cons_some_of_lt (by norm_num), countGE_cons_some_of_le (by norm_num),
    countGE_cons_some_of_le (by norm_num), countGE_cons_some_of_lt (by norm_num),
    countGE_cons_some_of_le (by norm_num), countGE_nil]
  norm_num
  rw [roundTo_eq_intCast (n := 60) (by norm_num)]
  norm_num

/-- Unfolded form of meanResult without the local binding. -/
theorem meanResult_eq (vs : List (Option ℚ)) :
    meanResult vs =
      if (vs.filterMap id).length = 0 then none
      else some (roundTo 2 ((vs.filterMap id).sum / ((vs.filterMap id).length : ℚ))) := rfl

/-- C2: in average mode, StatFormula.compute returns the mean of the
present (non-NaN) entries of the stat column rounded to two decimals, and
returns the undefined marker NaN when every entry is missing. -/
theorem C2_average_mode (data : Frame) (stat : String) (vs : List (Option ℚ))
    (hcol : data.lookup (pyUpper stat) = some vs) :
    (vs.filterMap id ≠ [] →
      StatFormula.compute data stat none
        = .ok (some (roundTo 2 ((vs.filterMap id).sum / ((vs.filterMap id).length : ℚ)))))
    ∧ (vs.filterMap id = [] → StatFormula.compute data stat none = .ok none) := by
  have hc : StatFormula.compute data stat none = .ok (meanResult vs) := by
    unfold StatFormula.compute
    rw [hcol]
  constructor <;> intro h
  · rw [hc, meanResult_eq, if_neg (by simpa using h)]
  · rw [hc, meanResult_eq, if_pos (by simpa using h)]

/-- Witness for C2: values [10, 20, 30] average to 20.00, and an
all-missing column gives the NaN marker. -/
theorem C2_average_mode_witness :
    StatFormula.compute [("PTS", [some 10, some 20, some 30])] "PTS" none = .ok (some 20)
    ∧ StatFormula.compute [("PTS", [none, none])] "PTS" none = .ok none := by
  constructor
  · have h := (C2_average_mode [("PTS", [some 10, some 20, some 30])] "PTS"
      [some 10, some 20, some 30] (by rfl)).1 (by simp)
    rw [h]
    simp only [List.filterMap_cons, List.filterMap_nil, id_eq, List.sum_cons, List.sum_nil,
      List.length_cons, List.length_nil]
    norm_num
    rw [roundTo_eq_intCast (n := 2000) (by norm_num)]
    norm_num
  · exact (C2_average_mode [("PTS", [(none : Option ℚ), none])] "PTS" [none, none]
      (by rfl)).2 (by simp)

/-- C3: for a stat code (an element of VALID_STATS) that is not a column
of the table, StatFormula.compute fails with a ValueError naming the
stat, whatever the table contents and whether or not a threshold is
supplied. -/
theorem C3_invalid_stat (data : Frame) (stat : String) (threshold : Option ℚ)
    (hvalid : stat ∈ VALID_STATS) (hcol : data.lookup stat = none) :
    StatFormula.compute data stat threshold
      = .error (.valueError ("Stat \x27" ++ stat ++ "\x27 not found in game data.")) := by
  have hup : pyUpper stat = stat := by
    fin_cases hvalid <;> rfl
  unfold StatFormula.compute
  rw [hup, hcol]

/-- Witness for C3: asking for BLK on a table that only has a PTS column
fails with the InvalidStat ValueError. -/
theorem C3_invalid_stat_witness :
    StatFormula.compute [("PTS", [some 1])] "BLK" (some 20)
      = .error (.valueError ("Stat \x27BLK\x27 not found in game data.")) :=
  C3_invalid_stat [("PTS", [some 1])] "BLK" (some 20) (by decide) (by rfl)

/-- C4: an absent career row or one with zero games played gives the
empty mapping, and otherwise each of the five averages is the stat total
over games played, rounded to one decimal with the half-even rule. -/
theorem C4_career_averages (df : List CareerRow) :
    (df = [] → get_career_averages df = [])
    ∧ (∀ r rest, df = r :: rest → r.GP = 0 → get_career_averages df = [])
    ∧ (∀ r rest, df = r :: rest → 0 < r.GP →
        get_career_averages df =
          [("PTS", roundTo 1 (r.PTS / r.GP)),
           ("AST", roundTo 1 (r.AST / r.GP)),
           ("REB", roundTo 1 (r.REB / r.GP)),
           ("BLK", roundTo 1 (r.BLK / r.GP)),
           ("STL", roundTo 1 (r.STL / r.GP))]) := by
  refine ⟨?_, ?_, ?_⟩
  · rintro rfl; rfl
  · rintro r rest rfl h0
    simp [get_career_averages, h0]
  · rintro r rest rfl hpos
    simp [get_career_averages, ne_of_gt hpos]

/-- Witness for C4: the empty table and a zero-GP row give the empty
mapping; a row with GP 4 and totals 102, 40, 30, 2, 6 gives the averages
25.5, 10.0, 7.5, 0.5, 1.5. -/
theorem C4_career_averages_witness :
    get_career_averages [] = []
    ∧ get_career_averages [⟨0, 1, 2, 3, 4, 5⟩] = []
    ∧ get_career_averages [⟨4, 102, 40, 30, 2, 6⟩] =
        [("PTS", 255 / 10), ("AST", 10), ("REB", 75 / 10), ("BLK", 5 / 10), ("STL", 15 / 10)] := by
  refine ⟨(C4_career_averages []).1 rfl,
    (C4_career_averages _).2.1 ⟨0, 1, 2, 3, 4, 5⟩ [] rfl rfl, ?_⟩
  rw [(C4_career_averages _).2.2 ⟨4, 102, 40, 30, 2, 6⟩ [] rfl (by norm_num)]
  rw [show ((⟨4, 102, 40, 30, 2, 6⟩ : CareerRow).PTS / (⟨4, 102, 40, 30, 2, 6⟩ : CareerRow).GP)
      = (102 : ℚ) / 4 from rfl]
  rw [roundTo_eq_intCast (n := 255) (by norm_num), roundTo_eq_intCast (n := 100) (by norm_num),
    roundTo_eq_intCast (n := 75) (by norm_num), roundTo_eq_intCast (n := 5) (by norm_num),
    roundTo_eq_intCast (n := 15) (by norm_num)]
  norm_num

/-- C5: for a retired player, get_recent_games fails with the plain
inactive-player ValueError, for every season and game count, and the
outcome does not depend on the game-log call at all (the check precedes
the call). -/
theorem C5_inactive (name : String) (log : Except String (List RawGameRow))
    (season : String) (num_games : ℕ) :
    get_recent_games false name log season num_games
      = .error (.valueError (name ++ " is not an active player. Recent game logs unavailable."))
    ∧ ∀ log2, get_recent_games false name log season num_games
        = get_recent_games false name log2 season num_games := by
  exact ⟨rfl, fun log2 => rfl⟩

/-- C6: for an active player, a non-empty game log of k rows with
requested count n yields exactly min n k rows without error, hence never
more than n rows and, for a positive count, never zero rows; an empty
log is the DataUnavailable error. -/
theorem C6_truncation (name : String) (log : List RawGameRow) (season : String) (n : ℕ) :
    (log ≠ [] →
      get_recent_games true name (.ok log) season n = .ok ((log.take n).map coerceRow)
      ∧ ((log.take n).map coerceRow).length = min n log.length
      ∧ ((log.take n).map coerceRow).length ≤ n
      ∧ (0 < n → (log.take n).map coerceRow ≠ []))
    ∧ (log = [] →
      get_recent_games true name (.ok log) season n
        = .error (.runtimeError ("Error retrieving recent games: No game log data available for "
            ++ name ++ " in season " ++ season ++ "."))) := by
  constructor
  · intro h
    obtain ⟨a, l, rfl⟩ := List.exists_cons_of_ne_nil h
    refine ⟨rfl, ?_, ?_, ?_⟩
    · simp [List.length_take]
    · simp [List.length_take]
    · intro hn
      obtain ⟨m, rfl⟩ := Nat.exists_eq_succ_of_ne_zero (Nat.pos_iff_ne_zero.mp hn)
      simp
  · rintro rfl
    rfl

/-- Witness for C6: a 3-row log with requested count 10 returns exactly
3 rows and no error (the missing PTS entry of the second row is coerced
to the NaN marker, not dropped). -/
theorem C6_truncation_witness :
    get_recent_games true "LeBron James"
        (.ok [⟨"JAN 3", .num 30, .num 5, .num 8, .num 1, .num 2⟩,
              ⟨"JAN 1", .missing, .num 4, .num 7, .num 0, .num 1⟩,
              ⟨"DEC 30", .num 28, .num 9, .num 6, .num 2, .num 3⟩])
        "2024-25" 10
      = .ok [⟨"JAN 3", some 30, some 5, some 8, some 1, some 2⟩,
             ⟨"JAN 1", none, some 4, some 7, some 0, some 1⟩,
             ⟨"DEC 30", some 28, some 9, some 6, some 2, some 3⟩]
    ∧ (3 : ℕ) = min 10 3 := by
  have h := (C6_truncation "LeBron James"
    [⟨"JAN 3", .num 30, .num 5, .num 8, .num 1, .num 2⟩,
     ⟨"JAN 1", .missing, .num 4, .num 7, .num 0, .num 1⟩,
     ⟨"DEC 30", .num 28, .num 9, .num 6, .num 2, .num 3⟩] "2024-25" 10).1 (by simp)
  exact ⟨h.1.trans rfl, by norm_num⟩

/-- C7: a unique case-insensitive directory match returns the identifier
of that entry; zero matches fail with the NotFound message wrapped in the
lookup RuntimeError; an external-call failure is wrapped in the same
RuntimeError around its own message, and the two errors differ whenever
the external message is not itself the NotFound text. -/
theorem C7_lookup (name : String) (ps : List DirEntry) :
    (∀ p, ps.filter (fun q => pyLower q.full_name == pyLower name) = [p] →
      lookup_player_id name (.ok ps) = .ok p.id)
    ∧ (ps.filter (fun q => pyLower q.full_name == pyLower name) = [] →
      lookup_player_id name (.ok ps)
        = .error (.runtimeError ("Error looking up player ID: Player \x27" ++ name
            ++ "\x27 not found in NBA API.")))
    ∧ (∀ e, lookup_player_id name (.error e)
        = .error (.runtimeError ("Error looking up player ID: " ++ e)))
    ∧ (∀ e, e ≠ "Player \x27" ++ name ++ "\x27 not found in NBA API." →
        lookup_player_id name (.error e)
          ≠ .error (.runtimeError ("Error looking up player ID: Player \x27" ++ name
              ++ "\x27 not found in NBA API."))) := by
  refine ⟨?_, ?_, fun e => rfl, ?_⟩
  · intro p hp
    simp only [lookup_player_id, hp]
  · intro hp
    simp only [lookup_player_id, hp]
  · intro e he hcontra
    apply he
    simp only [lookup_player_id] at hcontra
    injection hcontra with h3
    injection h3 with h4
    have h1 : ("Error looking up player ID: " ++ e : String)
        = "Error looking up player ID: "
          ++ ("Player \x27" ++ name ++ "\x27 not found in NBA API.") := by
      rw [h4, show ("Error looking up player ID: Player \x27" : String)
          = "Error looking up player ID: " ++ "Player \x27" from rfl]
      simp only [String.append_assoc]
    have h5 := congrArg String.data h1
    simp only [String.data_append] at h5
    exact String.ext (List.append_cancel_left h5)

/-- Witness for C7: a unique match up to case returns identifier 2544; an
unmatched name fails with the NotFound message; an external failure is
wrapped and differs from the NotFound error. -/
theorem C7_lookup_witness :
    lookup_player_id "Lebron James" (.ok [⟨"LeBron James", 2544⟩, ⟨"Stephen Curry", 201939⟩])
      = .ok 2544
    ∧ lookup_player_id "Michael Jordan" (.ok [⟨"LeBron James", 2544⟩])
      = .error (.runtimeError
          "Error looking up player ID: Player \x27Michael Jordan\x27 not found in NBA API.")
    ∧ lookup_player_id "Lebron James" (.error "HTTPSConnectionPool: read timed out")
      = .error (.runtimeError
          "Error looking up player ID: HTTPSConnectionPool: read timed out")
    ∧ lookup_player_id "Lebron James" (.error "HTTPSConnectionPool: read timed out")
      ≠ .error (.runtimeError
          "Error looking up player ID: Player \x27Lebron James\x27 not found in NBA API.") := by
  refine ⟨(C7_lookup "Lebron James" [⟨"LeBron James", 2544⟩, ⟨"Stephen Curry", 201939⟩]).1
      ⟨"LeBron James", 2544⟩ (by rfl),
    (C7_lookup "Michael Jordan" [⟨"LeBron James", 2544⟩]).2.1 (by rfl),
    ((C7_lookup "Lebron James" []).2.2.1 "HTTPSConnectionPool: read timed out").trans (by rfl),
    ?_⟩
  intro hcontra
  exact (C7_lookup "Lebron James" []).2.2.2 "HTTPSConnectionPool: read timed out" (by decide)
    (((C7_lookup "Lebron James" []).2.2.1 "HTTPSConnectionPool: read timed out").trans
      (hcontra.trans (by rfl)))

/-- The threshold count never exceeds the row count. -/
theorem countGE_le_length (t : ℚ) (vs : List (Option ℚ)) : countGE t vs ≤ vs.length :=
  List.length_filter_le _ vs

/-- The threshold count equals the count over the NaN-free entries: a
missing entry never reaches the numerator. -/
theorem countGE_eq_filterMap (t : ℚ) (vs : List (Option ℚ)) :
    countGE t vs = ((vs.filterMap id).filter (fun x => decide (t ≤ x))).length := by
  induction vs with
  | nil => rfl
  | cons v vs ih =>
    cases v with
    | none => simpa [countGE_cons_none, List.filterMap_cons] using ih
    | some x =>
      by_cases h : t ≤ x
      · simp [countGE_cons_some_of_le h, List.filterMap_cons, List.filter_cons, h, ih]
      · simp [countGE_cons_some_of_lt (not_le.mp h), List.filterMap_cons, List.filter_cons, h, ih]

/-- Looking up any valid stat in the frame built from get_recent_games
rows gives the corresponding full-length column. -/
theorem toFrame_lookup (rows : List GameRow) (stat : String) (h : stat ∈ VALID_STATS) :
    ∃ f : GameRow → Option ℚ, (toFrame rows).lookup (pyUpper stat) = some (rows.map f) := by
  fin_cases h
  · exact ⟨GameRow.PTS, rfl⟩
  · exact ⟨GameRow.AST, rfl⟩
  · exact ⟨GameRow.REB, rfl⟩
  · exact ⟨GameRow.BLK, rfl⟩
  · exact ⟨GameRow.STL, rfl⟩

/-- Counterexample to C8 as stated: in threshold mode on an empty column
StatFormula.compute does not fail; the unguarded zero-by-zero division
propagates as the NaN marker inside a successful return. -/
theorem C8_empty_counterexample :
    StatFormula.compute [("PTS", ([] : List (Option ℚ)))] "PTS" (some 20) = .ok none := rfl

/-- C8 amended: in threshold mode an empty column yields a successful
return carrying the NaN marker (so never 0.0, but not an error either,
since the division is not guarded); and whenever the table comes from a
successful get_recent_games call with a positive requested count, every
valid stat column is non-empty, so the empty case is unreachable and the
result is a genuine number. -/
theorem C8_empty_nan_and_unreachable :
    (∀ (data : Frame) (stat : String) (t : ℚ),
      data.lookup (pyUpper stat) = some [] →
      StatFormula.compute data stat (some t) = .ok none)
    ∧ (∀ (name season : String) (log : List RawGameRow) (n : ℕ) (rows : List GameRow)
        (stat : String) (t : ℚ),
        0 < n →
        stat ∈ VALID_STATS →
        get_recent_games true name (.ok log) season n = .ok rows →
        ∃ q : ℚ, StatFormula.compute (toFrame rows) stat (some t) = .ok (some q)) := by
  constructor
  · intro data stat t hcol
    unfold StatFormula.compute
    rw [hcol]
    rfl
  · intro name season log n rows stat t hn hstat hok
    have hlog : log ≠ [] := by
      rintro rfl
      simp [get_recent_games] at hok
    obtain ⟨a, l, rfl⟩ := List.exists_cons_of_ne_nil hlog
    have hrows : rows = ((a :: l).take n).map coerceRow := by
      simp only [get_recent_games, List.isEmpty_cons, if_neg] at hok
      simpa using hok.symm
    have hpos : rows.length ≠ 0 := by
      obtain ⟨m, rfl⟩ := Nat.exists_eq_succ_of_ne_zero (Nat.pos_iff_ne_zero.mp hn)
      simp [hrows]
    obtain ⟨f, hlook⟩ := toFrame_lookup rows stat hstat
    refine ⟨roundTo 2 ((countGE t (rows.map f) : ℚ) / ((rows.map f).length : ℚ)), ?_⟩
    unfold StatFormula.compute
    rw [hlook]
    show Except.ok (thresholdResult t (rows.map f)) = _
    unfold thresholdResult
    rw [if_neg (by simpa using hpos)]

/-- Witness for the amended C8: the empty PTS column yields the NaN
marker, and a one-row fetched table yields a genuine number. -/
theorem C8_empty_nan_and_unreachable_witness :
    StatFormula.compute [("AST", ([] : List (Option ℚ)))] "AST" (some 20) = .ok none
    ∧ ∃ q : ℚ, StatFormula.compute
        (toFrame [⟨"JAN 3", some 30, some 5, some 8, some 1, some 2⟩]) "PTS" (some 25)
        = .ok (some q) := by
  constructor
  · exact C8_empty_nan_and_unreachable.1 [("AST", [])] "AST" 20 (by rfl)
  · exact C8_empty_nan_and_unreachable.2 "LeBron James" "2024-25"
      [⟨"JAN 3", .num 30, .num 5, .num 8, .num 1, .num 2⟩] 5
      [⟨"JAN 3", some 30, some 5, some 8, some 1, some 2⟩] "PTS" 25 (by norm_num) (by decide)
      (by rfl)

/-- C9: at the end-to-end example (player LeBron James, probability
0.60, threshold 25.0, stat PTS) the driver prints the line with the
double-encoded bytes of the comparison sign, which is not the line with
the real greater-or-equal sign stated by the spec. -/
theorem C9_prediction_line_mojibake :
    predictionLine "LeBron James" (3 / 5) 25 "PTS"
      = "\nPrediction: LeBron James has a 60.0% chance of â‰¥ 25.0 PTS."
    ∧ predictionLine "LeBron James" (3 / 5) 25 "PTS"
      ≠ predictionLineSpec "LeBron James" (3 / 5) 25 "PTS" := by
  have hf : fmt1 ((3 : ℚ) / 5 * 100) = "60.0" := by
    unfold fmt1
    rw [show ((3 : ℚ) / 5 * 100 * 10) = ((600 : ℤ) : ℚ) by norm_num, roundHalfEven_intCast]
    rfl
  have hd : decPlaces 1 = some 0 := by
    unfold decPlaces
    rw [show (1100 : ℕ) = 1099 + 1 from rfl, List.range_succ_eq_map,
      List.find?_cons_of_pos _ (by norm_num)]
  have hs : floatStr 25 = "25.0" := by
    unfold floatStr
    rw [show ((25 : ℚ).den) = 1 by simp, show ((25 : ℚ).num) = 25 by simp, hd]
    rfl
  have h1 : predictionLine "LeBron James" (3 / 5) 25 "PTS"
      = "\nPrediction: LeBron James has a 60.0% chance of â‰¥ 25.0 PTS." := by
    unfold predictionLine
    rw [hf, hs]
    decide
  have h2 : predictionLineSpec "LeBron James" (3 / 5) 25 "PTS"
      = "\nPrediction: LeBron James has a 60.0% chance of ≥ 25.0 PTS." := by
    unfold predictionLineSpec
    rw [hf, hs]
    decide
  refine ⟨h1, ?_⟩
  rw [h1, h2]
  decide

/-- C10: in threshold mode a missing entry counts in the denominator but
never in the numerator, so the unrounded ratio never exceeds the ratio
over the NaN-free entries; the rounded result of a non-empty column lies
in the unit interval; and in average mode missing entries are ignored
entirely, the result depending only on the present entries. -/
theorem C10_nan_semantics (vs : List (Option ℚ)) (t : ℚ) (hne : vs ≠ []) :
    thresholdResult t vs = some (roundTo 2 ((countGE t vs : ℚ) / (vs.length : ℚ)))
    ∧ countGE t vs = ((vs.filterMap id).filter (fun x => decide (t ≤ x))).length
    ∧ (vs.filterMap id ≠ [] →
        (countGE t vs : ℚ) / (vs.length : ℚ)
          ≤ (countGE t vs : ℚ) / ((vs.filterMap id).length : ℚ))
    ∧ (∀ r, thresholdResult t vs = some r → 0 ≤ r ∧ r ≤ 1)
    ∧ meanResult vs = meanResult ((vs.filterMap id).map some) := by
  have hlen : (0 : ℚ) < (vs.length : ℚ) := by
    have := List.length_pos.mpr hne
    exact_mod_cast this
  have h1 : thresholdResult t vs = some (roundTo 2 ((countGE t vs : ℚ) / (vs.length : ℚ))) := by
    unfold thresholdResult
    rw [if_neg (by simpa using hne)]
  refine ⟨h1, countGE_eq_filterMap t vs, ?_, ?_, ?_⟩
  · intro hne2
    have hp : (0 : ℚ) < ((vs.filterMap id).length : ℚ) := by
      have := List.length_pos.mpr hne2
      exact_mod_cast this
    have hle : ((vs.filterMap id).length : ℚ) ≤ (vs.length : ℚ) := by
      exact_mod_cast List.length_filterMap_le id vs
    gcongr
  · intro r hr
    rw [h1] at hr
    injection hr with hr
    subst hr
    constructor
    · exact roundTo_nonneg (div_nonneg (Nat.cast_nonneg _) (le_of_lt hlen))
    · apply roundTo_le_one
      rw [div_le_one hlen]
      exact_mod_cast countGE_le_length t vs
  · rw [meanResult_eq, meanResult_eq, List.filterMap_map]
    simp [Function.comp_def, List.filterMap_some]

/-- Witness for C10: the column [30, NaN, 25, 10] with threshold 25 gives
probability 0.50 (the NaN row in the denominator only), the result is in
the unit interval, and average mode gives the same value as on the
NaN-free column [30, 25, 10]. -/
theorem C10_nan_semantics_witness :
    thresholdResult 25 [some 30, none, some 25, some 10] = some (50 / 100)
    ∧ (0 : ℚ) ≤ 50 / 100 ∧ (50 : ℚ) / 100 ≤ 1
    ∧ meanResult [some 30, none, some 25, some 10] = meanResult [some 30, some 25, some 10] := by
  have h := C10_nan_semantics [some 30, none, some 25, some 10] 25 (by simp)
  have h1 : thresholdResult 25 [some 30, none, some 25, some 10] = some (50 / 100) := by
    rw [h.1]
    rw [countGE_cons_some_of_le (by norm_num), countGE_cons_none,
      countGE_cons_some_of_le (by norm_num), countGE_cons_some_of_lt (by norm_num), countGE_nil]
    norm_num
    rw [roundTo_eq_intCast (n := 50) (by norm_num)]
    norm_num
  have hb := h.2.2.2.1 (50 / 100) h1
  refine ⟨h1, hb.1, hb.2, ?_⟩
  have h5 := h.2.2.2.2
  simpa using h5

end NBAStats
